import Mathlib

/-!
Shallow embedding of `src/Scripts/Record_EEG_with_Markers.py`
(class `EEGStreamerWithVideo`): the persisted-row data path
(`setup_csv`, `process_data`), the marker scheduler
(`marker_control_thread`, `clear_current_marker`), marker loading
(`load_markers`), video-player launch (`start_video_player`) and the
session lifecycle (`start_streaming`, `stop_streaming`).

Machine floats of the source are modelled as rationals; the external
BrainFlow board adapter is modelled by its channel-index metadata and by
the data matrix a poll returns; wall-clock time is modelled in
milliseconds as naturals where the marker scheduler is concerned and
left abstract elsewhere.
-/

/-- One cell of a persisted CSV row: numeric or textual. -/
inductive Cell where
  | num : ℚ → Cell
  | str : String → Cell
deriving DecidableEq, Repr

/-- Channel-index metadata of the acquisition board, as returned by
`BoardShim.get_eeg_channels`, `get_accel_channels`,
`get_timestamp_channel` for the configured `board_id`. -/
structure BoardMeta where
  eegChannels : List ℕ
  accelChannels : List ℕ
  timestampChannel : ℕ
deriving DecidableEq, Repr

/-- Metadata of the Cyton+Daisy board (`BoardIds.CYTON_DAISY_BOARD`):
16 EEG channels in data rows 1..16, 3 accelerometer channels in rows
17..19, the board timestamp in row 30. -/
def cytonDaisy : BoardMeta :=
  { eegChannels := [1, 2, 3, 4, 5, 6, 7, 8, 9, 10, 11, 12, 13, 14, 15, 16]
    accelChannels := [17, 18, 19]
    timestampChannel := 30 }

/-- The header row written by `setup_csv` (lines 96..105 of the source). -/
def csvHeaders : List String :=
  ["Sample Index",
   "EXG Channel 0", "EXG Channel 1", "EXG Channel 2", "EXG Channel 3",
   "EXG Channel 4", "EXG Channel 5", "EXG Channel 6", "EXG Channel 7",
   "EXG Channel 8", "EXG Channel 9", "EXG Channel 10", "EXG Channel 11",
   "EXG Channel 12", "EXG Channel 13", "EXG Channel 14", "EXG Channel 15",
   "Accel Channel 0", "Accel Channel 1", "Accel Channel 2",
   "Other", "Other", "Other", "Other", "Other", "Other", "Other", "Other",
   "Other", "Other", "Timestamp", "Marker Channel", "Timestamp (Formatted)"]

/-- The header row as cells, as it stands in the output file. -/
def headerRow : List Cell := csvHeaders.map Cell.str

/-- One row assembled by the body of the `for i in range(data.shape[1])`
loop of `process_data`: sample index, 16 EEG slots (a slot beyond the
board's EEG channel list is filled with 0.0), the accelerometer
channels, ten zero "Other" columns, the board timestamp, the current
marker, and the formatted timestamp.  `data ch i` is `data[ch][i]` of
the polled matrix; `fmt` models `datetime.fromtimestamp(..).strftime`. -/
def buildRow (meta : BoardMeta) (fmt : ℚ → String) (data : ℕ → ℕ → ℚ)
    (i : ℕ) (count : ℕ) (marker : String) : List Cell :=
  [Cell.num count]
    ++ ((List.range 16).map (fun ch =>
          if ch < meta.eegChannels.length then
            Cell.num (data (meta.eegChannels.getD ch 0) i)
          else
            Cell.num 0))
    ++ (meta.accelChannels.map (fun ch => Cell.num (data ch i)))
    ++ (List.replicate 10 (Cell.num 0))
    ++ [Cell.num (data meta.timestampChannel i),
        Cell.str marker,
        Cell.str (fmt (data meta.timestampChannel i))]

/-- The per-sample loop of `process_data`: starting at sample column `i`
with `m` samples left and counter `count`, increment the counter, build
the row, recurse.  Returns the final counter and the rows written. -/
def processDataGo (meta : BoardMeta) (fmt : ℚ → String) (data : ℕ → ℕ → ℚ)
    (marker : String) : ℕ → ℕ → ℕ → ℕ × List (List Cell)
  | _, 0, count => (count, [])
  | i, m + 1, count =>
    let row := buildRow meta fmt data i (count + 1) marker
    let rest := processDataGo meta fmt data marker (i + 1) m (count + 1)
    (rest.1, row :: rest.2)

/-- `process_data` on a polled batch of `n` samples: runs the per-sample
loop from column 0. -/
def process_data (meta : BoardMeta) (fmt : ℚ → String) (data : ℕ → ℕ → ℚ)
    (n : ℕ) (count : ℕ) (marker : String) : ℕ × List (List Cell) :=
  processDataGo meta fmt data marker 0 n count

/-- One batch delivered by `board.get_board_data()` in the main loop,
together with the value `current_marker` holds while the batch is
processed. -/
structure BatchSpec where
  n : ℕ
  data : ℕ → ℕ → ℚ
  marker : String

/-- The data path of the main collection loop: process each batch in
turn, threading `sample_count` through. -/
def streamBatches (meta : BoardMeta) (fmt : ℚ → String) :
    List BatchSpec → ℕ → List (List Cell)
  | [], _ => []
  | b :: rest, count =>
    let r := process_data meta fmt b.data b.n count b.marker
    r.2 ++ streamBatches meta fmt rest r.1

/-- The output artifact: `setup_csv` writes the header once, then the
main loop appends one row per sample. -/
def fileContents (meta : BoardMeta) (fmt : ℚ → String)
    (batches : List BatchSpec) : List (List Cell) :=
  headerRow :: streamBatches meta fmt batches 0

/-- Observable side effects of the lifecycle code: resource operations
and console messages, in emission order. -/
inductive Effect where
  | warnMarkerMissing : Effect
  | warnMarkerLoadError : String → Effect
  | prepareSession : Effect
  | openCsv : Effect
  | countdown : Effect
  | tryPlayer : String → Effect
  | playerStarted : String → Effect
  | warnNoPlayer : Effect
  | startStream : Effect
  | terminateVideo : Effect
  | stopBoard : Effect
  | releaseBoard : Effect
  | closeCsv : Effect
  | printSummary : ℕ → String → Effect
  | printAvgRate : ℚ → Effect
  | printStreamError : String → Effect
deriving DecidableEq, Repr

/-- The mutable fields of `EEGStreamerWithVideo` that the lifecycle
reads or writes (`__init__` lines 22..50). -/
structure SessionState where
  is_streaming : Bool
  sample_count : ℕ
  video_process : Option String
  csv_open : Bool
  sampling_rates : List ℚ
  schedule : List (ℚ × String)
  current_marker : String
  csv_filename : String
deriving DecidableEq, Repr

/-- `np.mean` of the retained sampling-rate window. -/
def meanRate (l : List ℚ) : ℚ := l.sum / l.length

/-- `stop_streaming` (lines 329..361): everything is guarded by
`if self.is_streaming`.  Inside the guard: clear the flag, terminate the
video process when one was launched, stop and release the board, close
the CSV file when open, print the summary, and print the average rate
when the window is nonempty.  Returns the new state and the emitted
effects. -/
def stop_streaming (s : SessionState) : SessionState × List Effect :=
  if s.is_streaming then
    ({ s with is_streaming := false },
     (match s.video_process with
      | some _ => [Effect.terminateVideo]
      | none => [])
       ++ [Effect.stopBoard, Effect.releaseBoard]
       ++ (if s.csv_open then [Effect.closeCsv] else [])
       ++ [Effect.printSummary s.sample_count s.csv_filename]
       ++ (if s.sampling_rates.isEmpty then []
           else [Effect.printAvgRate (meanRate s.sampling_rates)]))
  else
    (s, [])

/-- What the file system holds at the marker-schedule path: no file,
a file `pd.read_csv` fails on, or a file it parses into rows. -/
inductive MarkerFile where
  | missing : MarkerFile
  | unparsable : String → MarkerFile
  | parsed : List (ℚ × String) → MarkerFile
deriving DecidableEq, Repr

/-- `load_markers` (lines 64..78): a missing file yields the empty
schedule and a warning; a file `read_csv` raises on is caught and
yields the empty schedule and an error message; a parsed file yields
its rows.  The function always returns (the failure is never
propagated). -/
def load_markers : MarkerFile → List (ℚ × String) × List Effect
  | MarkerFile.missing => ([], [Effect.warnMarkerMissing])
  | MarkerFile.unparsable e => ([], [Effect.warnMarkerLoadError e])
  | MarkerFile.parsed rows => (rows, [])

/-- The ordered candidate list of `start_video_player`
(lines 113..134). -/
def players : List String := ["MPV", "VLC", "GNOME Videos", "FFplay"]

/-- The candidate loop of `start_video_player`: try each player in
order, return at the first that launches; `avail p = false` models
`subprocess.Popen` raising for player `p`.  Returns the players tried,
in order, and the one that launched, if any. -/
def tryPlayers (avail : String → Bool) : List String → List String × Option String
  | [] => ([], none)
  | p :: rest =>
    if avail p then ([p], some p)
    else
      let r := tryPlayers avail rest
      (p :: r.1, r.2)

/-- `start_video_player` (lines 111..151): run the candidate loop over
the fixed list; emit a try message per attempt, a success message when
one launches, and the no-player warning when all fail. -/
def start_video_player (avail : String → Bool) : Option String × List Effect :=
  let r := tryPlayers avail players
  (r.2,
   r.1.map Effect.tryPlayer
     ++ (match r.2 with
         | some p => [Effect.playerStarted p]
         | none => [Effect.warnNoPlayer]))

/-- Outcome of one `board.get_board_data()` call in the main loop:
a batch of `n` fresh samples, or the call raising. -/
inductive PollResult where
  | ok : ℕ → PollResult
  | fail : String → PollResult
deriving DecidableEq, Repr

/-- The behaviour of the outside world during one session: the marker
file, whether `get_video_path` yields a usable path, which external
players launch, whether `prepare_session` and `start_stream` succeed,
and the successive poll outcomes. -/
structure World where
  markerFile : MarkerFile
  videoPathOk : Bool
  playerAvail : String → Bool
  prepareOk : Bool
  startOk : Bool
  polls : List PollResult

/-- The state `__init__` leaves behind: flags down, counter zero, no
video process, CSV not yet open, empty rate window, schedule from
`load_markers`, empty current marker. -/
def initState (file : String) (mf : MarkerFile) : SessionState × List Effect :=
  (({ is_streaming := false
      sample_count := 0
      video_process := none
      csv_open := false
      sampling_rates := []
      schedule := (load_markers mf).1
      current_marker := ""
      csv_filename := file } : SessionState),
   (load_markers mf).2)

/-- The `while self.is_streaming` collection loop of `start_streaming`
(lines 239..246) over a finite trace of poll outcomes: a batch of `n`
samples advances `sample_count` by `n` (via `process_data`); a poll
that raises is caught by the enclosing `except`, which prints the
error and calls `stop_streaming`, ending the loop.  An exhausted trace
leaves the loop state as it stands. -/
def runLoop : List PollResult → SessionState → SessionState × List Effect
  | [], s => (s, [])
  | PollResult.ok n :: rest, s =>
    runLoop rest { s with sample_count := s.sample_count + n }
  | PollResult.fail e :: _, s =>
    let r := stop_streaming s
    (r.1, Effect.printStreamError e :: r.2)

/-- `start_streaming` (lines 196..250).  The body: resolve the video
path (early return when unavailable), `prepare_session`, `setup_csv`,
countdown, `start_video_player` (a total failure only logs),
`start_stream`, set `is_streaming`, then the collection loop.  The
whole body sits in a `try` whose `except` prints the error and calls
`stop_streaming`; `prepare_session` or `start_stream` raising jumps
there directly.  No path re-raises: the function always returns a
state and an effect trace to its caller. -/
def start_streaming (w : World) (s : SessionState) :
    SessionState × List Effect :=
  if w.videoPathOk = false then (s, [])
  else if w.prepareOk = false then
    let r := stop_streaming s
    (r.1, Effect.printStreamError "prepare_session" :: r.2)
  else
    let s1 : SessionState := { s with csv_open := true }
    let v := start_video_player w.playerAvail
    let s2 : SessionState := { s1 with video_process := v.1 }
    let pre := Effect.prepareSession :: Effect.openCsv :: Effect.countdown :: v.2
    if w.startOk = false then
      let r := stop_streaming s2
      (r.1, pre ++ Effect.printStreamError "start_stream" :: r.2)
    else
      let s3 : SessionState := { s2 with is_streaming := true }
      let r := runLoop w.polls s3
      (r.1, pre ++ Effect.startStream :: r.2)

/-- One session as driven by `main`: construct the streamer (which
loads the marker schedule) and run `start_streaming`. -/
def runSession (file : String) (w : World) : SessionState × List Effect :=
  let i := initState file w.markerFile
  let r := start_streaming w i.1
  (r.1, i.2 ++ r.2)

/-- The loop state of `marker_control_thread`: the schedule cursor
`marker_index` and the shared `current_marker`. -/
structure MarkerState where
  index : ℕ
  current : String
deriving DecidableEq, Repr

/-- One iteration of the polling loop of `marker_control_thread`
(lines 161..182) at a given elapsed time: when the cursor is inside the
schedule and the event under the cursor is due (`elapsed_time >=
marker_time`), set `current_marker` to its label and advance the cursor
by one; otherwise change nothing.  At most one event is consumed per
iteration (the body is an `if`, not an inner loop). -/
def markerPollStep (sched : List (ℚ × String)) (elapsed : ℚ)
    (st : MarkerState) : MarkerState :=
  if st.index < sched.length ∧ (sched.getD st.index (0, "")).1 ≤ elapsed then
    { index := st.index + 1, current := (sched.getD st.index (0, "")).2 }
  else st

/-- A run of the marker polling loop over a list of successive elapsed
times (one entry per 10 ms wake-up). -/
def runMarkerPolls (sched : List (ℚ × String)) :
    List ℚ → MarkerState → MarkerState
  | [], st => st
  | e :: es, st => runMarkerPolls sched es (markerPollStep sched e st)

/-- `threading.Timer(0.1, ...)` delay of the auto-clear, in
milliseconds (line 178). -/
def clearDelayMs : ℕ := 100

/-- `time.sleep(0.01)` polling period of the marker thread, in
milliseconds (line 182). -/
def pollIntervalMs : ℕ := 10

/-- First multiple of `p` at or after `t`: the first 10 ms wake-up at
which an event with offset `t` can be observed due. -/
def pollCeil (p t : ℕ) : ℕ := ((t + p - 1) / p) * p

/-- Timed label actions on `current_marker`, in milliseconds since the
recording start reference: `(t, some l)` is the scheduler writing label
`l` at time `t`; `(t, none)` is an auto-clear timer writing `""`. -/
def eventTimeline : List ((ℕ × String) × ℕ) → ℕ → List (ℕ × Option String)
  | [], _ => []
  | ((off, lab), d) :: rest, earliest =>
    let s := max (pollCeil pollIntervalMs off) earliest
    (s, some lab)
      :: (s + clearDelayMs + d, none)
      :: eventTimeline rest (s + pollIntervalMs)

/-- Replay a time-sorted action list: apply every action whose time has
passed at query time `t`, in order, and return the label standing at
`t`.  Each event of `eventTimeline` carries its set action at the first
poll wake-up at or after its offset (one event per wake-up) and its
clear action `clearDelayMs` plus a positive timer-scheduling latency
later; the replay is chronological provided each clear fires before the
next set, which the theorems' hypotheses guarantee. -/
def applyTimeline (cur : String) : List (ℕ × Option String) → ℕ → String
  | [], _ => cur
  | (s, act) :: rest, t =>
    if s ≤ t then
      applyTimeline (match act with | some l => l | none => "") rest t
    else cur

/-- `current_marker` at time `t` under the action timeline `tl`,
starting from the empty string set in `__init__`. -/
def labelAt (tl : List (ℕ × Option String)) (t : ℕ) : String :=
  applyTimeline "" tl t

/-- C1: invoking `stop_streaming` twice from any session state gives the
same final state and the same cumulative effect trace as invoking it
once: the second invocation changes nothing and emits nothing, because
the first invocation clears `is_streaming` and the whole body is guarded
by it. -/
theorem stop_streaming_idempotent (s : SessionState) :
    stop_streaming (stop_streaming s).1 = ((stop_streaming s).1, []) ∧
    (stop_streaming s).2 ++ (stop_streaming (stop_streaming s).1).2 =
      (stop_streaming s).2 := by
  have h : stop_streaming (stop_streaming s).1 = ((stop_streaming s).1, []) := by
    cases hs : s.is_streaming <;> simp [stop_streaming, hs]
  exact ⟨h, by rw [h]; simp⟩

/-- C10: when `is_streaming` is false, `stop_streaming` is a complete
no-op: the state is returned unchanged and no effect (video
termination, board stop or release, file close, summary) is emitted. -/
theorem stop_streaming_noop (s : SessionState)
    (h : s.is_streaming = false) : stop_streaming s = (s, []) := by
  simp [stop_streaming, h]

/-- Witness for C10 at a concrete never-started state. -/
theorem stop_streaming_noop_witness :
    (({ is_streaming := false, sample_count := 0, video_process := none,
        csv_open := false, sampling_rates := [], schedule := [],
        current_marker := "", csv_filename := "out.csv" } :
        SessionState)).is_streaming = false ∧
    stop_streaming
      { is_streaming := false, sample_count := 0, video_process := none,
        csv_open := false, sampling_rates := [], schedule := [],
        current_marker := "", csv_filename := "out.csv" } =
      ({ is_streaming := false, sample_count := 0, video_process := none,
         csv_open := false, sampling_rates := [], schedule := [],
         current_marker := "", csv_filename := "out.csv" }, []) :=
  ⟨rfl, stop_streaming_noop _ rfl⟩

/-- C7: a missing or unparsable marker file degrades to the empty
schedule with a warning message, and the session still starts and
reaches the streaming state — `load_markers` never propagates the
failure. -/
theorem load_markers_degrades (e : String) (mf : MarkerFile)
    (h : mf = MarkerFile.missing ∨ mf = MarkerFile.unparsable e) :
    (load_markers mf).1 = [] ∧
    (load_markers mf).2 ≠ [] ∧
    ∀ (file : String) (w : World), w.markerFile = mf →
      w.videoPathOk = true → w.prepareOk = true → w.startOk = true →
      w.polls = [] →
      (runSession file w).1.is_streaming = true ∧
      ∀ x ∈ (load_markers mf).2, x ∈ (runSession file w).2 := by
  have cont : ∀ (file : String) (w : World), w.markerFile = mf →
      w.videoPathOk = true → w.prepareOk = true → w.startOk = true →
      w.polls = [] →
      (runSession file w).1.is_streaming = true ∧
      ∀ x ∈ (load_markers mf).2, x ∈ (runSession file w).2 := by
    intro file w hm hv hp hs hpolls
    constructor
    · simp [runSession, initState, start_streaming, hv, hp, hs, hpolls, runLoop]
    · intro x hx
      simp only [runSession, initState, hm]
      exact List.mem_append_left _ hx
  rcases h with h | h <;> subst h
  · exact ⟨rfl, by simp [load_markers], cont⟩
  · exact ⟨rfl, by simp [load_markers], cont⟩

/-- Witness for C7: missing marker file, cooperative world. -/
theorem load_markers_degrades_witness :
    (MarkerFile.missing = MarkerFile.missing ∨
      MarkerFile.missing = MarkerFile.unparsable "boom") ∧
    (load_markers MarkerFile.missing).1 = [] ∧
    (runSession "out.csv"
      ⟨MarkerFile.missing, true, fun _ => false, true, true, []⟩).1.is_streaming
        = true := by
  have h := load_markers_degrades "boom" MarkerFile.missing (Or.inl rfl)
  exact ⟨Or.inl rfl, h.1,
    (h.2.2 "out.csv" ⟨MarkerFile.missing, true, fun _ => false, true, true, []⟩
      rfl rfl rfl rfl rfl).1⟩

/-- The candidate loop returns the first launchable player and tries
exactly the failing ones before it, in list order. -/
theorem tryPlayers_finds_first (avail : String → Bool) (l : List String) :
    (tryPlayers avail l).2 = l.find? avail ∧
    (tryPlayers avail l).1 =
      (match l.find? avail with
       | some p => l.takeWhile (fun q => !avail q) ++ [p]
       | none => l) := by
  induction l with
  | nil => simp [tryPlayers]
  | cons p rest ih =>
    by_cases hp : avail p
    · simp [tryPlayers, hp, List.find?_cons_of_pos, List.takeWhile_cons]
    · cases hfind : rest.find? avail <;>
        simp [tryPlayers, hp, List.find?_cons_of_neg, List.takeWhile_cons,
          ih.1, ih.2, hfind]

/-- A fail-free poll trace keeps the loop running: the streaming flag,
the open file and the schedule are untouched, the sample counter only
grows, and the loop emits no effect. -/
theorem runLoop_ok_all (polls : List PollResult) (s : SessionState)
    (h : ∀ e, PollResult.fail e ∉ polls) :
    (runLoop polls s).1.is_streaming = s.is_streaming ∧
    s.sample_count ≤ (runLoop polls s).1.sample_count ∧
    (runLoop polls s).1.csv_open = s.csv_open ∧
    (runLoop polls s).2 = [] := by
  induction polls generalizing s with
  | nil => simp [runLoop]
  | cons p rest ih =>
    cases p with
    | ok n =>
      have h' : ∀ e, PollResult.fail e ∉ rest := by
        intro e he
        exact h e (List.mem_cons_of_mem _ he)
      have := ih { s with sample_count := s.sample_count + n } h'
      refine ⟨this.1, ?_, this.2.2.1, this.2.2.2⟩
      calc s.sample_count ≤ s.sample_count + n := Nat.le_add_right _ _
        _ ≤ _ := this.2.1
    | fail e => exact absurd (List.mem_cons_self _ _) (fun c => h e c)

/-- Unfolding of a session whose path resolution, device preparation
and stream start all succeed. -/
theorem runSession_eq (file : String) (w : World)
    (hv : w.videoPathOk = true) (hp : w.prepareOk = true)
    (hs : w.startOk = true) :
    runSession file w =
      ((runLoop w.polls
          { is_streaming := true, sample_count := 0,
            video_process := (start_video_player w.playerAvail).1,
            csv_open := true, sampling_rates := [],
            schedule := (load_markers w.markerFile).1, current_marker := "",
            csv_filename := file }).1,
       (load_markers w.markerFile).2
         ++ (Effect.prepareSession :: Effect.openCsv :: Effect.countdown
              :: (start_video_player w.playerAvail).2)
         ++ Effect.startStream
         :: (runLoop w.polls
              { is_streaming := true, sample_count := 0,
                video_process := (start_video_player w.playerAvail).1,
                csv_open := true, sampling_rates := [],
                schedule := (load_markers w.markerFile).1,
                current_marker := "", csv_filename := file }).2) := by
  simp [runSession, start_streaming, initState, hv, hp, hs]

/-- C8: `start_video_player` launches the first candidate that starts,
having tried exactly the preceding (failing) candidates in their listed
order; when every candidate fails it returns no player and warns, and a
session in such a world still starts streaming and produces the polled
samples. -/
theorem player_fallback (file : String) (avail : String → Bool) (w : World)
    (n : ℕ) (rest : List PollResult) :
    ((start_video_player avail).1 = players.find? avail ∧
     (tryPlayers avail players).1 =
       (match players.find? avail with
        | some p => players.takeWhile (fun q => !avail q) ++ [p]
        | none => players)) ∧
    ((∀ p ∈ players, avail p = false) →
      (start_video_player avail).1 = none ∧
      Effect.warnNoPlayer ∈ (start_video_player avail).2) ∧
    (w.videoPathOk = true → w.prepareOk = true → w.startOk = true →
      w.polls = PollResult.ok n :: rest →
      (∀ e, PollResult.fail e ∉ rest) →
      (∀ p ∈ players, w.playerAvail p = false) →
      (runSession file w).1.is_streaming = true ∧
      n ≤ (runSession file w).1.sample_count ∧
      Effect.warnNoPlayer ∈ (runSession file w).2) := by
  refine ⟨⟨(tryPlayers_finds_first avail players).1,
      (tryPlayers_finds_first avail players).2⟩, fun hall => ?_, ?_⟩
  · have hf : players.find? avail = none := by
      rw [List.find?_eq_none]
      intro x hx
      simp [hall x hx]
    constructor
    · show (tryPlayers avail players).2 = none
      rw [(tryPlayers_finds_first avail players).1, hf]
    · have h1 : (tryPlayers avail players).2 = none := by
        rw [(tryPlayers_finds_first avail players).1, hf]
      simp [start_video_player, h1]
  · intro hv hp hs hpolls hnofail hallw
    rw [runSession_eq file w hv hp hs]
    have hf : players.find? w.playerAvail = none := by
      rw [List.find?_eq_none]
      intro x hx
      simp [hallw x hx]
    have h1 : (start_video_player w.playerAvail).1 = none := by
      show (tryPlayers w.playerAvail players).2 = none
      rw [(tryPlayers_finds_first w.playerAvail players).1, hf]
    have h2 : Effect.warnNoPlayer ∈ (start_video_player w.playerAvail).2 := by
      have h1' : (tryPlayers w.playerAvail players).2 = none := by
        rw [(tryPlayers_finds_first w.playerAvail players).1, hf]
      simp [start_video_player, h1']
    rw [hpolls]
    have hrun := runLoop_ok_all rest
      ({ is_streaming := true, sample_count := 0 + n,
         video_process := (start_video_player w.playerAvail).1,
         csv_open := true, sampling_rates := [],
         schedule := (load_markers w.markerFile).1, current_marker := "",
         csv_filename := file } : SessionState) hnofail
    refine ⟨?_, ?_, ?_⟩
    · simpa [runLoop] using hrun.1
    · simp only [runLoop, Nat.zero_add]
      simpa using hrun.2.1
    · simp [h2]

/-- Witness for C8: no player launches, one batch of 5 samples. -/
theorem player_fallback_witness :
    ((fun _ => false : String → Bool) "MPV" = false) ∧
    (start_video_player (fun _ => false)).1 = none ∧
    (runSession "out.csv"
        ⟨MarkerFile.parsed [], true, fun _ => false, true, true,
          [PollResult.ok 5]⟩).1.is_streaming = true ∧
    5 ≤ (runSession "out.csv"
        ⟨MarkerFile.parsed [], true, fun _ => false, true, true,
          [PollResult.ok 5]⟩).1.sample_count ∧
    Effect.warnNoPlayer ∈ (runSession "out.csv"
        ⟨MarkerFile.parsed [], true, fun _ => false, true, true,
          [PollResult.ok 5]⟩).2 := by
  have h := player_fallback "out.csv" (fun _ => false)
    ⟨MarkerFile.parsed [], true, fun _ => false, true, true,
      [PollResult.ok 5]⟩ 5 []
  have h3 := h.2.2 rfl rfl rfl rfl
    (by intro e he; simp at he) (by intro p _; rfl)
  exact ⟨rfl, (h.2.1 (by intro p _; rfl)).1, h3.1, h3.2.1, h3.2.2⟩

/-- The video-launch path emits no board or file effects. -/
theorem video_effects_disjoint (avail : String → Bool) :
    Effect.releaseBoard ∉ (start_video_player avail).2 ∧
    Effect.closeCsv ∉ (start_video_player avail).2 := by
  cases hr : (tryPlayers avail players).2 <;>
    simp [start_video_player, hr, List.mem_map]

/-- Marker loading emits no board or file effects. -/
theorem load_effects_disjoint (mf : MarkerFile) :
    Effect.releaseBoard ∉ (load_markers mf).2 ∧
    Effect.closeCsv ∉ (load_markers mf).2 := by
  cases mf <;> simp [load_markers]

/-- The collection loop on an ok-prefix followed by a failing poll:
the counter advances by the prefix total, then the caught error prints
and `stop_streaming` runs. -/
theorem runLoop_fail (pre : List ℕ) (e : String) (rest : List PollResult)
    (s : SessionState) :
    runLoop (pre.map PollResult.ok ++ PollResult.fail e :: rest) s =
      ((stop_streaming
          { s with sample_count := s.sample_count + pre.sum }).1,
       Effect.printStreamError e ::
         (stop_streaming
           { s with sample_count := s.sample_count + pre.sum }).2) := by
  induction pre generalizing s with
  | nil => simp [runLoop]
  | cons a t ih =>
    simp [runLoop, ih, List.sum_cons, Nat.add_assoc]

/-- Unfolding of a session whose `start_stream` call raises. -/
theorem runSession_eq_startfail (file : String) (w : World)
    (hv : w.videoPathOk = true) (hp : w.prepareOk = true)
    (hs : w.startOk = false) :
    runSession file w =
      ({ is_streaming := false, sample_count := 0,
         video_process := (start_video_player w.playerAvail).1,
         csv_open := true, sampling_rates := [],
         schedule := (load_markers w.markerFile).1, current_marker := "",
         csv_filename := file },
       (load_markers w.markerFile).2
         ++ (Effect.prepareSession :: Effect.openCsv :: Effect.countdown
              :: (start_video_player w.playerAvail).2)
         ++ [Effect.printStreamError "start_stream"]) := by
  simp [runSession, start_streaming, initState, hv, hp, hs, stop_streaming]

/-- Counterexample to C9 as stated: when `start_stream` raises (a
device failure of the start operation), `is_streaming` is still false,
so the invoked `stop_streaming` is a no-op — the device session is not
released, the already-open sink is not closed (`csv_open` stays true),
and `start_streaming` returns normally instead of surfacing the
error. -/
theorem device_failure_counterexample :
    Effect.releaseBoard ∉
      (runSession "out.csv"
        ⟨MarkerFile.parsed [], true, fun _ => false, true, false, []⟩).2 ∧
    Effect.closeCsv ∉
      (runSession "out.csv"
        ⟨MarkerFile.parsed [], true, fun _ => false, true, false, []⟩).2 ∧
    (runSession "out.csv"
        ⟨MarkerFile.parsed [], true, fun _ => false, true, false, []⟩).1.csv_open
      = true := by
  refine ⟨?_, ?_, ?_⟩ <;>
    simp [runSession_eq_startfail "out.csv"
      ⟨MarkerFile.parsed [], true, fun _ => false, true, false, []⟩
      rfl rfl rfl, start_video_player, tryPlayers, players, load_markers]

/-- C9 amended: a device failure is caught inside `start_streaming`,
which prints the error and invokes `stop_streaming`, then returns
normally (nothing is re-raised to the caller).  The full shutdown
sequence — board stop and release, sink close — runs only when the
failure is a poll failure after streaming started; when
`prepare_session` or `start_stream` fails, `is_streaming` is still
false and the invoked `stop_streaming` does nothing, leaving the
device session unreleased and the sink unclosed. -/
theorem device_failure_shutdown (file : String) (w : World)
    (pre : List ℕ) (e : String) (rest : List PollResult)
    (hv : w.videoPathOk = true) (hp : w.prepareOk = true)
    (hs : w.startOk = true)
    (hpolls : w.polls = pre.map PollResult.ok ++ PollResult.fail e :: rest) :
    Effect.stopBoard ∈ (runSession file w).2 ∧
    Effect.releaseBoard ∈ (runSession file w).2 ∧
    Effect.closeCsv ∈ (runSession file w).2 ∧
    Effect.printStreamError e ∈ (runSession file w).2 ∧
    (runSession file w).1.is_streaming = false ∧
    (∀ (w2 : World) (file2 : String), w2.videoPathOk = true →
      w2.prepareOk = true → w2.startOk = false →
      Effect.releaseBoard ∉ (runSession file2 w2).2 ∧
      Effect.closeCsv ∉ (runSession file2 w2).2 ∧
      Effect.printStreamError "start_stream" ∈ (runSession file2 w2).2) := by
  rw [runSession_eq file w hv hp hs, hpolls, runLoop_fail]
  refine ⟨?_, ?_, ?_, ?_, ?_, ?_⟩
  · simp [stop_streaming]
  · simp [stop_streaming]
  · simp [stop_streaming]
  · simp [stop_streaming]
  · simp [stop_streaming]
  · intro w2 file2 hv2 hp2 hs2
    rw [runSession_eq_startfail file2 w2 hv2 hp2 hs2]
    refine ⟨?_, ?_, ?_⟩
    · simp [(load_effects_disjoint w2.markerFile).1,
        (video_effects_disjoint w2.playerAvail).1]
    · simp [(load_effects_disjoint w2.markerFile).2,
        (video_effects_disjoint w2.playerAvail).2]
    · simp

/-- Witness for C9 amended: one good batch, then the poll raises;
and a world whose `start_stream` raises. -/
theorem device_failure_shutdown_witness :
    Effect.releaseBoard ∈
      (runSession "out.csv"
        ⟨MarkerFile.parsed [], true, fun _ => false, true, true,
          [PollResult.ok 3, PollResult.fail "boom"]⟩).2 ∧
    Effect.closeCsv ∈
      (runSession "out.csv"
        ⟨MarkerFile.parsed [], true, fun _ => false, true, true,
          [PollResult.ok 3, PollResult.fail "boom"]⟩).2 ∧
    Effect.releaseBoard ∉
      (runSession "x.csv"
        ⟨MarkerFile.missing, true, fun _ => false, true, false, []⟩).2 := by
  have h := device_failure_shutdown "out.csv"
    ⟨MarkerFile.parsed [], true, fun _ => false, true, true,
      [PollResult.ok 3, PollResult.fail "boom"]⟩
    [3] "boom" [] rfl rfl rfl rfl
  exact ⟨h.2.1, h.2.2.1,
    (h.2.2.2.2.2 ⟨MarkerFile.missing, true, fun _ => false, true, false, []⟩
      "x.csv" rfl rfl rfl).1⟩

/-- The per-sample loop returns the counter advanced by exactly one per
sample of the batch. -/
theorem processDataGo_count (meta : BoardMeta) (fmt : ℚ → String)
    (data : ℕ → ℕ → ℚ) (marker : String) :
    ∀ (n i count : ℕ),
      (processDataGo meta fmt data marker i n count).1 = count + n := by
  intro n
  induction n with
  | zero => intro i count; simp [processDataGo]
  | succ m ih =>
    intro i count
    simp only [processDataGo]
    rw [ih]
    omega

/-- The Sample Index cells written by the per-sample loop are the
consecutive naturals `count+1, ..., count+n`. -/
theorem processDataGo_indices (meta : BoardMeta) (fmt : ℚ → String)
    (data : ℕ → ℕ → ℚ) (marker : String) :
    ∀ (n i count : ℕ),
      ((processDataGo meta fmt data marker i n count).2).map
          (fun r => r.getD 0 (Cell.num 0)) =
        (List.range' (count + 1) n).map
          (fun k : ℕ => Cell.num (k : ℚ)) := by
  intro n
  induction n with
  | zero => intro i count; simp [processDataGo]
  | succ m ih =>
    intro i count
    simp only [processDataGo, List.map_cons, List.range'_succ]
    rw [ih]
    rfl

/-- Total number of samples over a list of polled batches. -/
def totalSamples (batches : List BatchSpec) : ℕ :=
  (batches.map (fun b => b.n)).sum

/-- Across the whole session, the Sample Index column is the contiguous
block `count+1, ..., count+total`. -/
theorem streamBatches_indices (meta : BoardMeta) (fmt : ℚ → String) :
    ∀ (batches : List BatchSpec) (count : ℕ),
      (streamBatches meta fmt batches count).map
          (fun r => r.getD 0 (Cell.num 0)) =
        (List.range' (count + 1) (totalSamples batches)).map
          (fun k : ℕ => Cell.num (k : ℚ)) := by
  intro batches
  induction batches with
  | nil => intro count; simp [streamBatches, totalSamples]
  | cons b t ih =>
    intro count
    simp only [streamBatches, totalSamples, List.map_cons, List.sum_cons,
      List.map_append, process_data]
    rw [processDataGo_indices, processDataGo_count, ih]
    rw [← List.map_append]
    have harr : count + b.n + 1 = count + 1 + b.n := by omega
    rw [harr, List.range'_append_1, Nat.add_comm (totalSamples t) b.n]
    rfl

/-- C2: `sample_count` starts at 0 (set in `__init__`), `process_data`
advances it by exactly one per sample, and the Sample Index column of
the rows persisted over the session is exactly `1, 2, ..., N` where `N`
is the total number of samples — strictly increasing with no gaps. -/
theorem sample_index_contiguous (meta : BoardMeta) (fmt : ℚ → String)
    (data : ℕ → ℕ → ℚ) (marker : String) (file : String) (mf : MarkerFile)
    (batches : List BatchSpec) (n count : ℕ) :
    (initState file mf).1.sample_count = 0 ∧
    (process_data meta fmt data n count marker).1 = count + n ∧
    (streamBatches meta fmt batches (initState file mf).1.sample_count).map
        (fun r => r.getD 0 (Cell.num 0)) =
      (List.range' 1 (totalSamples batches)).map
        (fun k : ℕ => Cell.num (k : ℚ)) := by
  refine ⟨rfl, processDataGo_count meta fmt data marker n 0 count, ?_⟩
  have h := streamBatches_indices meta fmt batches 0
  simpa using h

/-- The marker cell of every persisted row is the `current_marker`
value seen when its batch was processed. -/
theorem buildRow_label (fmt : ℚ → String) (data : ℕ → ℕ → ℚ)
    (i count : ℕ) (marker : String) :
    (buildRow cytonDaisy fmt data i count marker).getD 31 (Cell.num 0) =
      Cell.str marker := rfl

/-- Every row written by the per-sample loop carries the marker value
it was called with in its Marker Channel cell. -/
theorem processDataGo_rows_label (fmt : ℚ → String) (data : ℕ → ℕ → ℚ)
    (marker : String) :
    ∀ (n i count : ℕ) (row : List Cell),
      row ∈ (processDataGo cytonDaisy fmt data marker i n count).2 →
      row.getD 31 (Cell.num 0) = Cell.str marker := by
  intro n
  induction n with
  | zero => intro i count row h; simp [processDataGo] at h
  | succ m ih =>
    intro i count row h
    simp only [processDataGo] at h
    rcases List.mem_cons.mp h with h | h
    · subst h; exact buildRow_label fmt data i (count + 1) marker
    · exact ih _ _ _ h

/-- With an empty schedule the marker loop body never runs, so no poll
changes the marker state. -/
theorem runMarkerPolls_empty (es : List ℚ) (st : MarkerState) :
    runMarkerPolls [] es st = st := by
  induction es generalizing st with
  | nil => rfl
  | cons e es ih => simp [runMarkerPolls, markerPollStep, ih]

/-- C3: when the loaded schedule is empty, any sequence of marker-thread
polls leaves `current_marker` at its initial empty string, and every
row persisted with that marker has an empty Marker Channel cell. -/
theorem empty_schedule_empty_labels (es : List ℚ) (fmt : ℚ → String)
    (data : ℕ → ℕ → ℚ) (n count : ℕ) :
    (runMarkerPolls [] es ⟨0, ""⟩).current = "" ∧
    ∀ row ∈ (process_data cytonDaisy fmt data n count
        (runMarkerPolls [] es ⟨0, ""⟩).current).2,
      row.getD 31 (Cell.num 0) = Cell.str "" := by
  have h0 : (runMarkerPolls [] es ⟨0, ""⟩).current = "" := by
    rw [runMarkerPolls_empty]
  refine ⟨h0, ?_⟩
  rw [h0]
  intro row hrow
  exact processDataGo_rows_label fmt data "" n 0 count row hrow

/-- Witness for C3: one poll, one sample. -/
theorem empty_schedule_empty_labels_witness :
    (buildRow cytonDaisy (fun _ => "t") (fun _ _ => 0) 0 1 "") ∈
      (process_data cytonDaisy (fun _ => "t") (fun _ _ => 0) 1 0
        (runMarkerPolls [] [1] ⟨0, ""⟩).current).2 ∧
    (buildRow cytonDaisy (fun _ => "t") (fun _ _ => 0) 0 1 "").getD 31
        (Cell.num 0) = Cell.str "" := by
  have hm : (process_data cytonDaisy (fun _ => "t") (fun _ _ => 0) 1 0
      (runMarkerPolls [] [1] ⟨0, ""⟩).current).2 =
      [buildRow cytonDaisy (fun _ => "t") (fun _ _ => 0) 0 1 ""] := rfl
  refine ⟨by rw [hm]; exact List.mem_singleton_self _, ?_⟩
  exact (empty_schedule_empty_labels [1] (fun _ => "t") (fun _ _ => 0) 1 0).2
    _ (by rw [hm]; exact List.mem_singleton_self _)

/-- The EEG slot `ch` (0-based, column `1 + ch`) of a row holds the
polled value of board EEG channel `ch` when the board has one, and the
zero sentinel otherwise — for any board metadata. -/
theorem buildRow_eeg_slot (meta : BoardMeta) (fmt : ℚ → String)
    (data : ℕ → ℕ → ℚ) (i count : ℕ) (marker : String)
    (ch : ℕ) (h : ch < 16) :
    (buildRow meta fmt data i count marker).getD (1 + ch) (Cell.num 0) =
      (if ch < meta.eegChannels.length then
        Cell.num (data (meta.eegChannels.getD ch 0) i)
      else Cell.num 0) := by
  rw [buildRow, Nat.add_comm 1 ch]
  rw [List.append_assoc, List.append_assoc, List.append_assoc,
    List.singleton_append, List.getD_cons_succ, List.getD_eq_getElem?_getD,
    List.getElem?_append_left (by simpa using h), List.getElem?_map,
    List.getElem?_range h]
  rfl

/-- The header row appears exactly once in the output artifact: written
by `setup_csv`, and no data row can equal it since data rows start with
a numeric Sample Index cell. -/
theorem headerRow_once (fmt : ℚ → String) (batches : List BatchSpec) :
    (fileContents cytonDaisy fmt batches).count headerRow = 1 := by
  have hmem : headerRow ∉ streamBatches cytonDaisy fmt batches 0 := by
    intro hmem
    have h1 : headerRow.getD 0 (Cell.num 0) ∈
        (streamBatches cytonDaisy fmt batches 0).map
          (fun r => r.getD 0 (Cell.num 0)) :=
      List.mem_map_of_mem _ hmem
    rw [streamBatches_indices] at h1
    rcases List.mem_map.mp h1 with ⟨k, _, hk⟩
    simp [headerRow, csvHeaders] at hk
  simp [fileContents, List.count_cons_self, List.count_eq_zero.mpr hmem]

/-- C4: the header has 33 columns; every persisted row has 33 cells in
the schema [sample index, 16 EEG slots, 3 accelerometer values, 10 zero
"Other" columns, board timestamp, marker label, formatted timestamp];
an EEG slot with no corresponding device channel holds the zero
sentinel; and the header row is written exactly once, at the head of
the artifact. -/
theorem row_schema (fmt : ℚ → String) (data : ℕ → ℕ → ℚ)
    (i count : ℕ) (marker : String) (batches : List BatchSpec) :
    csvHeaders.length = 33 ∧
    (buildRow cytonDaisy fmt data i count marker).length = 33 ∧
    (buildRow cytonDaisy fmt data i count marker).getD 0 (Cell.num 0) =
      Cell.num count ∧
    (∀ ch, ch < 16 →
      (buildRow cytonDaisy fmt data i count marker).getD (1 + ch)
          (Cell.num 0) =
        Cell.num (data (ch + 1) i)) ∧
    (∀ ch, ch < 3 →
      (buildRow cytonDaisy fmt data i count marker).getD (17 + ch)
          (Cell.num 0) =
        Cell.num (data (17 + ch) i)) ∧
    (∀ j, 20 ≤ j → j < 30 →
      (buildRow cytonDaisy fmt data i count marker).getD j (Cell.num 0) =
        Cell.num 0) ∧
    (buildRow cytonDaisy fmt data i count marker).getD 30 (Cell.num 0) =
      Cell.num (data 30 i) ∧
    (buildRow cytonDaisy fmt data i count marker).getD 31 (Cell.num 0) =
      Cell.str marker ∧
    (buildRow cytonDaisy fmt data i count marker).getD 32 (Cell.num 0) =
      Cell.str (fmt (data 30 i)) ∧
    (∀ (meta : BoardMeta) (ch : ℕ),
      meta.eegChannels.length ≤ ch → ch < 16 →
      (buildRow meta fmt data i count marker).getD (1 + ch) (Cell.num 0) =
        Cell.num 0) ∧
    (fileContents cytonDaisy fmt batches).count headerRow = 1 := by
  refine ⟨rfl, rfl, rfl, ?_, ?_, ?_, rfl, rfl, rfl, ?_,
    headerRow_once fmt batches⟩
  · intro ch hch
    rw [buildRow_eeg_slot cytonDaisy fmt data i count marker ch hch]
    have hlen : ch < cytonDaisy.eegChannels.length := by
      simp [cytonDaisy]
      omega
    rw [if_pos hlen]
    interval_cases ch <;> rfl
  · intro ch hch
    interval_cases ch <;> rfl
  · intro j hj1 hj2
    interval_cases j <;> rfl
  · intro meta ch h1 h2
    rw [buildRow_eeg_slot meta fmt data i count marker ch h2]
    rw [if_neg (by omega)]

/-- Witness for C4: EEG slot 2, "Other" column 25, and a board with no
EEG channels padding slot 4 with the zero sentinel. -/
theorem row_schema_witness :
    (2 < 16 ∧
      (buildRow cytonDaisy (fun _ => "ts") (fun c _ => (c : ℚ)) 0 7 "M").getD
        (1 + 2) (Cell.num 0) = Cell.num ((2 + 1 : ℕ) : ℚ)) ∧
    (20 ≤ 25 ∧ 25 < 30 ∧
      (buildRow cytonDaisy (fun _ => "ts") (fun c _ => (c : ℚ)) 0 7 "M").getD
        25 (Cell.num 0) = Cell.num 0) ∧
    ((⟨[], [], 0⟩ : BoardMeta).eegChannels.length ≤ 4 ∧ 4 < 16 ∧
      (buildRow ⟨[], [], 0⟩ (fun _ => "ts") (fun c _ => (c : ℚ)) 0 7 "M").getD
        (1 + 4) (Cell.num 0) = Cell.num 0) := by
  have h := row_schema (fun _ => "ts") (fun c _ => (c : ℚ)) 0 7 "M" []
  exact ⟨⟨by omega, h.2.2.2.1 2 (by omega)⟩,
    ⟨by omega, by omega, h.2.2.2.2.2.1 25 (by omega) (by omega)⟩,
    ⟨by simp, by omega,
      h.2.2.2.2.2.2.2.2.2.1 ⟨[], [], 0⟩ 4 (by simp) (by omega)⟩⟩

/-- Counterexample to C5 as stated: with schedule [(0,"A"),(0,"B")] and
both events already overdue at elapsed time 1, a single poll iteration
makes the EARLIER overdue label "A" the current marker and advances the
cursor by exactly one — the last overdue label "B" does not become
current at that poll, and "A" is not silently skipped. -/
theorem marker_catchup_counterexample :
    markerPollStep [((0 : ℚ), "A"), (0, "B")] 1 ⟨0, ""⟩ =
      ({ index := 1, current := "A" } : MarkerState) ∧
    ("A" : String) ≠ "B" := by
  constructor
  · rfl
  · decide

/-- C5 amended: with several events overdue, the scheduler consumes
exactly one overdue event per poll iteration, in schedule order: after
`j` polls at elapsed time `e` the cursor has advanced by `j` and
`current_marker` is the label of event `j-1`.  Each earlier overdue
label therefore becomes the current label for one poll interval, and
only after as many polls as overdue events is the last overdue label
current. -/
theorem marker_catchup (sched : List (ℚ × String)) (e : ℚ) :
    ∀ (j i : ℕ) (cur : String), 1 ≤ j → i + j ≤ sched.length →
      (∀ t, i ≤ t → t < i + j → (sched.getD t (0, "")).1 ≤ e) →
      runMarkerPolls sched (List.replicate j e) ⟨i, cur⟩ =
        ⟨i + j, (sched.getD (i + j - 1) (0, "")).2⟩ := by
  intro j
  induction j with
  | zero => intro i cur h1; exact absurd h1 (by omega)
  | succ m ih =>
    intro i cur h1 h2 h3
    rw [List.replicate_succ]
    show runMarkerPolls sched (List.replicate m e)
      (markerPollStep sched e ⟨i, cur⟩) = _
    have hstep : markerPollStep sched e ⟨i, cur⟩ =
        ⟨i + 1, (sched.getD i (0, "")).2⟩ := by
      have hi : i < sched.length := by omega
      have ho : (sched.getD i (0, "")).1 ≤ e := h3 i (le_refl i) (by omega)
      show (if i < sched.length ∧ (sched.getD i (0, "")).1 ≤ e then
          ({ index := i + 1, current := (sched.getD i (0, "")).2 } :
            MarkerState)
        else ⟨i, cur⟩) = _
      rw [if_pos ⟨hi, ho⟩]
    rw [hstep]
    by_cases hm : m = 0
    · subst hm
      show (⟨i + 1, (sched.getD i (0, "")).2⟩ : MarkerState) = _
      have : i + (0 + 1) - 1 = i := by omega
      rw [this]
    · have h1' : 1 ≤ m := by omega
      have hrec := ih (i + 1) ((sched.getD i (0, "")).2) h1' (by omega)
        (fun t ht1 ht2 => h3 t (by omega) (by omega))
      rw [hrec]
      have harith : i + 1 + m = i + (m + 1) := by omega
      rw [harith]

/-- Witness for C5 amended: two overdue events, two polls, the label of
the second (last) event is current afterwards. -/
theorem marker_catchup_witness :
    (1 ≤ 2 ∧ 0 + 2 ≤ ([((0 : ℚ), "A"), (0, "B")]).length) ∧
    runMarkerPolls [((0 : ℚ), "A"), (0, "B")]
        (List.replicate 2 1) ⟨0, ""⟩ =
      ⟨0 + 2, (([((0 : ℚ), "A"), (0, "B")]).getD (0 + 2 - 1) (0, "")).2⟩ := by
  refine ⟨⟨by omega, by decide⟩,
    marker_catchup [((0 : ℚ), "A"), (0, "B")] 1 2 0 "" (by omega)
      (by decide) ?_⟩
  intro t ht1 ht2
  interval_cases t
  · show ((0 : ℚ), "A").1 ≤ 1
    norm_num
  · show ((0 : ℚ), "B").1 ≤ 1
    norm_num

/-- C6: for the schedule [(0.5 s, "A"), (1.0 s, "B")] relative to the
recording start reference, with the scheduler setting each label at the
first 10 ms wake-up at or after its offset and each auto-clear timer
firing `clearDelayMs` plus a positive scheduling latency (`dA`, `dB`
milliseconds, with `dA` small enough that the first clear precedes the
second set) after its set: the label at elapsed 600 ms is "A", at
elapsed 1100 ms is "B", and at any time after the second auto-clear has
fired it is the empty string. -/
theorem marker_scenario (dA dB : ℕ) (hA0 : 0 < dA) (hA : dA < 400)
    (hB0 : 0 < dB) :
    labelAt (eventTimeline [((500, "A"), dA), ((1000, "B"), dB)] 0) 600
      = "A" ∧
    labelAt (eventTimeline [((500, "A"), dA), ((1000, "B"), dB)] 0) 1100
      = "B" ∧
    ∀ t, 1100 + dB < t →
      labelAt (eventTimeline [((500, "A"), dA), ((1000, "B"), dB)] 0) t
        = "" := by
  have htl : eventTimeline [((500, "A"), dA), ((1000, "B"), dB)] 0 =
      [(500, some "A"), (600 + dA, none), (1000, some "B"),
       (1100 + dB, none)] := by
    norm_num [eventTimeline, pollCeil, pollIntervalMs, clearDelayMs]
  rw [htl]
  refine ⟨?_, ?_, ?_⟩
  · simp only [labelAt, applyTimeline]
    rw [if_pos (by omega), if_neg (by omega)]
  · simp only [labelAt, applyTimeline]
    rw [if_pos (by omega), if_pos (by omega), if_pos (by omega),
      if_neg (by omega)]
  · intro t ht
    simp only [labelAt, applyTimeline]
    rw [if_pos (by omega), if_pos (by omega), if_pos (by omega),
      if_pos (by omega)]

/-- Witness for C6: one-millisecond timer latencies, queried at
1200 ms. -/
theorem marker_scenario_witness :
    ((0 : ℕ) < 1 ∧ (1 : ℕ) < 400) ∧
    labelAt (eventTimeline [((500, "A"), 1), ((1000, "B"), 1)] 0) 600
      = "A" ∧
    labelAt (eventTimeline [((500, "A"), 1), ((1000, "B"), 1)] 0) 1100
      = "B" ∧
    labelAt (eventTimeline [((500, "A"), 1), ((1000, "B"), 1)] 0) 1200
      = "" := by
  have h := marker_scenario 1 1 (by omega) (by omega) (by omega)
  exact ⟨⟨by omega, by omega⟩, h.1, h.2.1, h.2.2 1200 (by omega)⟩
